import Mathlib

/-!
Verification of the ncspot scrobbler/presence orchestrator
(src/scrobbler.rs) against its natural-language specification.

The module is embedded shallowly: the two methods with control flow,
ScrobblerManager::set_lastfm and ScrobblerManager::update_scrobbler, become
pure Lean functions.  External capabilities (the Last.fm scrobbler, the
Discord presence client, the wall clock, the Playable string formatter) are
modelled as oracle parameters; the connector calls a run performs are
returned as an explicit trace.  Every .expect(...) in the source is a
potential process abort: it is modelled by a `panicked` flag (for
update_scrobbler) or an Option result (for set_lastfm), set when the
corresponding oracle reports failure.  Rust u64 subtraction is modelled as
a checked subtraction that aborts on underflow.
-/

/-- Track metadata, from crate::model::track::Track (the fields read by
scrobbler.rs: title, optional album, artist list, optional cover url). -/
structure Track where
  title : String
  album : Option String
  artists : List String
  cover_url : Option String
  deriving DecidableEq, Repr

/-- Opaque payload of a non-Track playable (episodes etc.). -/
structure Episode where
  id : String
  deriving DecidableEq, Repr

/-- crate::model::playable::Playable: the union of playable kinds; only
Track participates in reporting. -/
inductive Playable where
  | track (t : Track)
  | episode (e : Episode)
  deriving DecidableEq, Repr

/-- crate::spotify::PlayerEvent.  Playing and Paused carry a payload that
update_scrobbler ignores (it matches them with a wildcard). -/
inductive PlayerEvent where
  | Playing (since : Nat)
  | Paused (pos : Nat)
  | Stopped
  | FinishedTrack
  deriving DecidableEq, Repr

/-- config::Scrobbling: the scrobbling section of the configuration, every
field optional (matching the unwrap_or defaults read in scrobbler.rs). -/
structure Scrobbling where
  enabled : Option Bool
  discord_enabled : Option Bool
  lastfm_api_key : Option String
  lastfm_api_secret : Option String
  lastfm_username : Option String
  lastfm_password : Option String
  discord_format_details : Option String
  discord_format_state : Option String
  deriving DecidableEq, Repr

/-- The persisted session fields of the configuration state read and
written by set_lastfm. -/
structure ConfigState where
  lastfm_session_key : Option String
  lastfm_session_user : Option String
  deriving DecidableEq, Repr

/-- How the Last.fm scrobbler was authenticated (the two branches of
set_lastfm that produce Some(scrobbler)). -/
inductive ScrobblerAuth where
  | viaSessionKey (key : String)
  | viaPassword (key : String)
  deriving DecidableEq, Repr

/-- Result of set_lastfm: the scrobbler (if any), the configuration state
after the call, and whether authenticate_with_password was invoked. -/
structure SetLastfmResult where
  scrobbler : Option ScrobblerAuth
  state : ConfigState
  password_auth_attempted : Bool
  deriving DecidableEq, Repr

/-- ScrobblerManager::set_lastfm.  The password-authentication network call
is an oracle returning the session key on success and none on failure; a
none oracle answer makes the whole call panic (the source unwraps it with
.expect), which we model by returning none. -/
def set_lastfm (scrobbling : Option Scrobbling) (st : ConfigState)
    (authenticate_with_password : String → String → Option String) :
    Option SetLastfmResult :=
  match scrobbling with
  | none => some ⟨none, st, false⟩
  | some sc =>
    match sc.lastfm_api_key, sc.lastfm_api_secret with
    | some _, some _ =>
      match sc.lastfm_username, sc.lastfm_password with
      | some username, some password =>
        match st.lastfm_session_key, st.lastfm_session_user with
        | some session_key, some session_user =>
          if session_user = username then
            some ⟨some (.viaSessionKey session_key), st, false⟩
          else
            match authenticate_with_password username password with
            | none => none
            | some key =>
              some ⟨some (.viaPassword key), ⟨some key, some username⟩, true⟩
        | _, _ =>
          match authenticate_with_password username password with
          | none => none
          | some key =>
            some ⟨some (.viaPassword key), ⟨some key, some username⟩, true⟩
      | _, _ => some ⟨none, st, false⟩
    | _, _ => some ⟨none, st, false⟩

/-- ScrobblerManager::playable_to_track. -/
def playable_to_track (playable : Option Playable) : Option Track :=
  match playable with
  | some p =>
    match p with
    | .track track => some track
    | _ => none
  | none => none

def DISCORD_PLAYING : String := "Playing"
def DISCORD_PAUSED : String := "Paused"
def DISCORD_IMAGE_PLAY : String := "playing"
def DISCORD_IMAGE_PAUSE : String := "pause"
def DISCORD_IMAGE_LOGO : String := "logo"

/-- A call issued to one of the two external connectors.  setActivity
carries the payload fields in the order details, state, large image, large
text, small image, small text, optional start timestamp; scrobble carries
artist, title, album. -/
inductive ConnCall where
  | setActivity (details stateStr large_image large_text small_image
      small_text : String) (start : Option Nat)
  | clearActivity
  | scrobble (artist title album : String)
  deriving DecidableEq, Repr

/-- Environment oracles for one update_scrobbler call: the wall clock
(none when SystemTime::now precedes UNIX_EPOCH, which makes
duration_since return Err) and the success of each connector operation. -/
structure Oracles where
  unix_now : Option Nat
  set_activity_ok : Bool
  clear_activity_ok : Bool
  scrobble_ok : Bool
  deriving DecidableEq, Repr

/-- Outcome of one update_scrobbler call: the connector calls issued, and
whether the call panicked (an .expect on a failed Result, or an u64
subtraction underflow). -/
structure DispatchResult where
  calls : List ConnCall
  panicked : Bool
  deriving DecidableEq, Repr

/-- The literal Scrobbling value that update_scrobbler substitutes with
unwrap_or when the configuration has no scrobbling section. -/
def fallback_scrobbling : Scrobbling :=
  ⟨some false, some true, none, none, none, none, none, none⟩

/-- The is_enabled computation at the top of update_scrobbler. -/
def is_enabled (cfg : Option Scrobbling) : Bool :=
  ((cfg.getD fallback_scrobbling).enabled).getD false

/-- Rust u64 subtraction a - b with its overflow check: none on underflow
(which aborts the process). -/
def checked_sub (a b : Nat) : Option Nat :=
  if b ≤ a then some (a - b) else none

/-- ScrobblerManager::update_scrobbler.  Playable::format is the external
formatter, taken as the oracle parameter fmt (track and template to
rendered string); the library handle is baked into it.  progress is the
Duration argument in whole seconds (as_secs). -/
def update_scrobbler (cfg : Option Scrobbling) (scrobbler : Option ScrobblerAuth)
    (fmt : Track → String → String) (ev : PlayerEvent)
    (playable : Option Playable) (progress : Nat) (o : Oracles) :
    DispatchResult :=
  if !(is_enabled cfg) then ⟨[], false⟩
  else
    match playable_to_track playable, cfg with
    | some track, some scrobbling_cfg =>
      let discord_details :=
        fmt track (scrobbling_cfg.discord_format_details.getD "%artists / %album")
      let discord_state :=
        fmt track (scrobbling_cfg.discord_format_details.getD "%title")
      let cover_url := track.cover_url.getD DISCORD_IMAGE_LOGO
      let discord_enabled := scrobbling_cfg.discord_enabled.getD true
      match ev with
      | .Playing _ =>
        if !discord_enabled then ⟨[], false⟩
        else
          match o.unix_now with
          | none => ⟨[], true⟩
          | some unix_now =>
            match checked_sub unix_now progress with
            | none => ⟨[], true⟩
            | some start_timestamp =>
              ⟨[.setActivity discord_state discord_details cover_url "ncspot"
                  DISCORD_IMAGE_PLAY DISCORD_PLAYING (some start_timestamp)],
                !o.set_activity_ok⟩
      | .Stopped => ⟨[.clearActivity], !o.clear_activity_ok⟩
      | .Paused _ =>
        if !discord_enabled then ⟨[], false⟩
        else
          ⟨[.setActivity discord_state discord_details cover_url "ncspot"
              DISCORD_IMAGE_PAUSE DISCORD_PAUSED none],
            !o.set_activity_ok⟩
      | .FinishedTrack =>
        match scrobbler with
        | some _ =>
          let artists :=
            if track.artists.isEmpty then ["Unknown Artist"] else track.artists
          ⟨[.scrobble (String.intercalate ", " artists) track.title
              (track.album.getD "Unknown Album")],
            !o.scrobble_ok⟩
        | none => ⟨[], false⟩
    | _, _ => ⟨[], false⟩

/-- Whether a connector call is a scrobble submission. -/
def is_scrobble_call : ConnCall → Bool
  | .scrobble _ _ _ => true
  | _ => false

/-- Sample track with empty artist list and no album. -/
def sample_track : Track := ⟨"Song", none, [], none⟩

/-- Sample track with full metadata. -/
def sample_track2 : Track := ⟨"Tune", some "Alb", ["A", "B"], some "cover"⟩

/-- Sample configuration with everything enabled and credentials present. -/
def sample_cfg : Scrobbling :=
  ⟨some true, some true, some "key", some "secret", some "user", some "pass",
    none, none⟩

/-- Sample formatter oracle. -/
def fmt0 : Track → String → String := fun t tpl => tpl ++ ":" ++ t.title

/-- Claim C4 (confirmed): for every playback event, playable item and
progress value, if the master enabled flag is false or the scrobbling
section is absent, update_scrobbler makes no presence-connector call and no
logging-connector call (and does not panic). -/
theorem C4_disabled_no_calls (cfg : Option Scrobbling) (sc : Scrobbling)
    (scr : Option ScrobblerAuth) (fmt : Track → String → String)
    (ev : PlayerEvent) (playable : Option Playable) (progress : Nat)
    (o : Oracles)
    (h : cfg = none ∨ (cfg = some sc ∧ sc.enabled = some false)) :
    update_scrobbler cfg scr fmt ev playable progress o = ⟨[], false⟩ := by
  rcases h with h | ⟨h, he⟩
  · subst h
    simp [update_scrobbler, is_enabled, fallback_scrobbling]
  · subst h
    simp [update_scrobbler, is_enabled, he]

/-- Witness for C4 at a concrete disabled configuration. -/
theorem C4_disabled_no_calls_witness :
    update_scrobbler (some { sample_cfg with enabled := some false }) none fmt0
      .Stopped (some (.track sample_track)) 0 ⟨some 0, true, true, true⟩
      = ⟨[], false⟩ :=
  C4_disabled_no_calls _ { sample_cfg with enabled := some false } _ _ _ _ _ _
    (Or.inr ⟨rfl, rfl⟩)

/-- Claim C5 (confirmed): for every event whose current playable is absent
or a non-Track variant, update_scrobbler issues no presence update and no
log submission (its call trace is empty and it does not panic). -/
theorem C5_nontrack_no_calls (cfg : Option Scrobbling)
    (scr : Option ScrobblerAuth) (fmt : Track → String → String)
    (ev : PlayerEvent) (playable : Option Playable) (progress : Nat)
    (o : Oracles)
    (h : playable = none ∨ ∃ e : Episode, playable = some (.episode e)) :
    update_scrobbler cfg scr fmt ev playable progress o = ⟨[], false⟩ := by
  have hp : playable_to_track playable = none := by
    rcases h with h | ⟨e, h⟩ <;> subst h <;> rfl
  unfold update_scrobbler
  rw [hp]
  cases cfg <;> simp

/-- Witness for C5: an episode playable yields no calls even when fully
enabled. -/
theorem C5_nontrack_no_calls_witness :
    update_scrobbler (some sample_cfg) (some (.viaSessionKey "sk")) fmt0
      .FinishedTrack (some (.episode ⟨"ep"⟩)) 0 ⟨some 0, true, true, true⟩
      = ⟨[], false⟩ :=
  C5_nontrack_no_calls _ _ _ _ _ _ _ (Or.inr ⟨⟨"ep"⟩, rfl⟩)

/-- Claim C2 counterexample: with the master flag enabled but no current
playable item, a Stopped event issues zero clear_activity calls — the code
guards the whole dispatch, the Stopped arm included, behind the current
item being a Track, so the claim "regardless of what item (if any) is
currently playing" is false. -/
theorem C2_counterexample :
    ((update_scrobbler (some sample_cfg) none fmt0 .Stopped none 0
        ⟨some 0, true, true, true⟩).calls.count .clearActivity) = 0 := by
  decide

/-- Claim C2 (corrected): for every Stopped event with the master enabled
flag true and the current playable a Track, exactly one clear_activity call
is issued, regardless of the presence_enabled sub-setting (the statement
quantifies over every discord_enabled value in sc). -/
theorem C2_stopped_single_clear (sc : Scrobbling)
    (scr : Option ScrobblerAuth) (fmt : Track → String → String)
    (track : Track) (progress : Nat) (o : Oracles)
    (henabled : sc.enabled = some true) :
    (update_scrobbler (some sc) scr fmt .Stopped (some (.track track))
        progress o).calls = [.clearActivity] := by
  simp [update_scrobbler, is_enabled, henabled, playable_to_track]

/-- Witness for C2 with presence disabled (discord_enabled = some false):
the clear still happens. -/
theorem C2_stopped_single_clear_witness :
    (update_scrobbler (some { sample_cfg with discord_enabled := some false })
        none fmt0 .Stopped (some (.track sample_track)) 0
        ⟨some 0, true, true, true⟩).calls = [.clearActivity] :=
  C2_stopped_single_clear { sample_cfg with discord_enabled := some false }
    _ _ _ _ _ rfl

/-- Claim C8 (confirmed): a FinishedTrack submission has artist field
"Unknown Artist" when the track's artist list is empty (and the joined
artist list otherwise), the track's title as title field, and album field
"Unknown Album" when the album is absent. -/
theorem C8_scrobble_record_fallbacks (sc : Scrobbling)
    (scrA : ScrobblerAuth) (fmt : Track → String → String) (track : Track)
    (progress : Nat) (o : Oracles)
    (henabled : sc.enabled = some true) :
    (update_scrobbler (some sc) (some scrA) fmt .FinishedTrack
        (some (.track track)) progress o).calls
      = [.scrobble
          (if track.artists.isEmpty then "Unknown Artist"
            else String.intercalate ", " track.artists)
          track.title
          (track.album.getD "Unknown Album")] := by
  simp only [update_scrobbler, is_enabled, henabled, playable_to_track,
    Option.getD_some, Bool.not_true, Bool.false_eq_true, if_false,
    Bool.not_eq_true']
  by_cases he : track.artists.isEmpty
  · have hone : String.intercalate ", " ["Unknown Artist"] = "Unknown Artist" := rfl
    simp [he, hone]
  · simp [he]

/-- Witness for C8: a track with empty artist list and no album yields the
record ("Unknown Artist", "Song", "Unknown Album"). -/
theorem C8_scrobble_record_fallbacks_witness :
    (update_scrobbler (some sample_cfg) (some (.viaSessionKey "sk")) fmt0
        .FinishedTrack (some (.track sample_track)) 0
        ⟨some 0, true, true, true⟩).calls
      = [.scrobble "Unknown Artist" "Song" "Unknown Album"] := by
  have h := C8_scrobble_record_fallbacks sample_cfg (.viaSessionKey "sk")
    fmt0 sample_track 0 ⟨some 0, true, true, true⟩ rfl
  simpa [sample_track] using h

/-- Claim C9 (confirmed): a Playing event with progress e seconds at wall
clock T (epoch seconds, with e not exceeding T so the u64 subtraction is
defined) produces a presence payload whose start timestamp is T - e. -/
theorem C9_start_timestamp (sc : Scrobbling) (scr : Option ScrobblerAuth)
    (fmt : Track → String → String) (track : Track) (e T pp : Nat)
    (o : Oracles)
    (henabled : sc.enabled = some true)
    (hde : sc.discord_enabled.getD true = true)
    (hclock : o.unix_now = some T)
    (hle : e ≤ T) :
    (update_scrobbler (some sc) scr fmt (.Playing pp) (some (.track track))
        e o).calls
      = [.setActivity (fmt track (sc.discord_format_details.getD "%title"))
          (fmt track (sc.discord_format_details.getD "%artists / %album"))
          (track.cover_url.getD DISCORD_IMAGE_LOGO) "ncspot"
          DISCORD_IMAGE_PLAY DISCORD_PLAYING (some (T - e))] := by
  simp [update_scrobbler, is_enabled, henabled, playable_to_track, hde,
    hclock, checked_sub, hle]

/-- Witness for C9: elapsed 30 seconds at wall time 1000 yields start
timestamp 970. -/
theorem C9_start_timestamp_witness :
    (update_scrobbler (some sample_cfg) none fmt0 (.Playing 0)
        (some (.track sample_track)) 30 ⟨some 1000, true, true, true⟩).calls
      = [.setActivity (fmt0 sample_track "%title")
          (fmt0 sample_track "%artists / %album") DISCORD_IMAGE_LOGO "ncspot"
          DISCORD_IMAGE_PLAY DISCORD_PLAYING (some 970)] := by
  have h := C9_start_timestamp sample_cfg none fmt0 sample_track 30 1000 0
    ⟨some 1000, true, true, true⟩ rfl rfl rfl (by decide)
  simpa [sample_cfg, sample_track] using h

/-- Claim C10 (confirmed): the start-timestamp computation is the
unguarded u64 subtraction unix_now - elapsed; it is defined exactly when
the elapsed seconds do not exceed the wall clock, and outside that
precondition (elapsed exceeding the clock, or a clock before the epoch so
that duration_since fails) the Playing dispatch aborts the process instead
of producing a payload. -/
theorem C10_unguarded_sub (sc : Scrobbling) (scr : Option ScrobblerAuth)
    (fmt : Track → String → String) (track : Track) (e T pp a b : Nat)
    (o o2 : Oracles)
    (henabled : sc.enabled = some true)
    (hde : sc.discord_enabled.getD true = true)
    (hclock : o.unix_now = some T)
    (hover : T < e)
    (hclock2 : o2.unix_now = none) :
    ((checked_sub a b).isSome = true ↔ b ≤ a)
    ∧ checked_sub T e = none
    ∧ update_scrobbler (some sc) scr fmt (.Playing pp)
        (some (.track track)) e o = ⟨[], true⟩
    ∧ update_scrobbler (some sc) scr fmt (.Playing pp)
        (some (.track track)) e o2 = ⟨[], true⟩ := by
  refine ⟨?_, ?_, ?_, ?_⟩
  · simp [checked_sub]
  · simp [checked_sub, Nat.not_le.mpr hover]
  · simp [update_scrobbler, is_enabled, henabled, playable_to_track, hde,
      hclock, checked_sub, Nat.not_le.mpr hover]
  · simp [update_scrobbler, is_enabled, henabled, playable_to_track, hde,
      hclock2]

/-- Witness for C10: clock 10, elapsed 11 panics; a pre-epoch clock
panics; and checked_sub 5 3 is defined since 3 is at most 5. -/
theorem C10_unguarded_sub_witness :
    ((checked_sub 5 3).isSome = true ↔ 3 ≤ 5)
    ∧ checked_sub 10 11 = none
    ∧ update_scrobbler (some sample_cfg) none fmt0 (.Playing 0)
        (some (.track sample_track)) 11 ⟨some 10, true, true, true⟩
        = ⟨[], true⟩
    ∧ update_scrobbler (some sample_cfg) none fmt0 (.Playing 0)
        (some (.track sample_track)) 11 ⟨none, true, true, true⟩
        = ⟨[], true⟩ :=
  C10_unguarded_sub sample_cfg none fmt0 sample_track 11 10 0 5 3
    ⟨some 10, true, true, true⟩ ⟨none, true, true, true⟩ rfl rfl rfl
    (by decide) rfl

/-- Claim C6 (confirmed): with the master flag enabled, a FinishedTrack
event issues a scrobble submission if and only if a scrobbler was
constructed at authentication time and the current playable is a Track. -/
theorem C6_finished_submission_iff (cfg : Option Scrobbling)
    (scr : Option ScrobblerAuth) (fmt : Track → String → String)
    (playable : Option Playable) (progress : Nat) (o : Oracles)
    (henabled : is_enabled cfg = true) :
    ((update_scrobbler cfg scr fmt .FinishedTrack playable progress
        o).calls.any is_scrobble_call = true)
      ↔ (scr.isSome = true ∧ (playable_to_track playable).isSome = true) := by
  cases cfg with
  | none => simp [is_enabled, fallback_scrobbling] at henabled
  | some sc =>
    cases hpt : playable_to_track playable with
    | none =>
      simp [update_scrobbler, henabled, hpt]
    | some track =>
      cases scr with
      | none => simp [update_scrobbler, henabled, hpt]
      | some a => simp [update_scrobbler, henabled, hpt, is_scrobble_call]

/-- Witness for C6: with a constructed scrobbler and a Track playable, the
submission happens (both iff sides hold at a concrete input). -/
theorem C6_finished_submission_iff_witness :
    ((update_scrobbler (some sample_cfg) (some (.viaPassword "k")) fmt0
        .FinishedTrack (some (.track sample_track2)) 0
        ⟨some 0, true, true, true⟩).calls.any is_scrobble_call = true)
      ↔ (((some (ScrobblerAuth.viaPassword "k")).isSome = true)
          ∧ (playable_to_track (some (.track sample_track2))).isSome = true) :=
  C6_finished_submission_iff (some sample_cfg) (some (.viaPassword "k")) fmt0
    (some (.track sample_track2)) 0 ⟨some 0, true, true, true⟩ rfl

/-- update_scrobbler never reads the discord_format_state field: replacing
it leaves the dispatch outcome unchanged. -/
theorem discord_format_state_not_read (sc : Scrobbling) (s : String)
    (scr : Option ScrobblerAuth) (fmt : Track → String → String)
    (ev : PlayerEvent) (playable : Option Playable) (progress : Nat)
    (o : Oracles) :
    update_scrobbler (some { sc with discord_format_state := s }) scr fmt ev
        playable progress o
      = update_scrobbler (some sc) scr fmt ev playable progress o := by
  obtain ⟨en, de, ak, asec, un, pw, fd, fs⟩ := sc
  cases playable with
  | none => rfl
  | some p =>
    cases p with
    | episode e => rfl
    | track track => cases ev <;> rfl

/-- Claim C3 (confirmed): whenever a dispatch sends a presence payload and
the details template discord_format_details is configured, both the details
string and the state string of the payload are the track formatted with
that details template, and the configured state template
discord_format_state is never read by the dispatcher. -/
theorem C3_details_template_used_for_both (sc : Scrobbling)
    (scr : Option ScrobblerAuth) (fmt : Track → String → String)
    (ev : PlayerEvent) (track : Track) (progress : Nat) (o : Oracles)
    (d s1 det stt li lt si stx : String) (ts : Option Nat)
    (hd : sc.discord_format_details = some d)
    (hmem : ConnCall.setActivity det stt li lt si stx ts ∈
      (update_scrobbler (some sc) scr fmt ev (some (.track track)) progress
        o).calls) :
    update_scrobbler (some { sc with discord_format_state := s1 }) scr fmt
        ev (some (.track track)) progress o
      = update_scrobbler (some sc) scr fmt ev (some (.track track)) progress o
    ∧ det = fmt track d ∧ stt = fmt track d := by
  refine ⟨discord_format_state_not_read sc s1 scr fmt ev
    (some (.track track)) progress o, ?_⟩
  obtain ⟨en, de, ak, asec, un, pw, fd, fs⟩ := sc
  have hd2 : fd = some d := hd
  subst hd2
  by_cases hen : en.getD false = true
  · cases ev with
    | Stopped =>
      simp [update_scrobbler, is_enabled, hen, playable_to_track] at hmem
    | FinishedTrack =>
      cases scr with
      | none =>
        simp [update_scrobbler, is_enabled, hen, playable_to_track] at hmem
      | some a =>
        simp [update_scrobbler, is_enabled, hen, playable_to_track] at hmem
    | Playing pp =>
      by_cases hde : de.getD true = true
      · cases ho : o.unix_now with
        | none =>
          simp [update_scrobbler, is_enabled, hen, hde, ho,
            playable_to_track] at hmem
        | some t =>
          by_cases hcs : progress ≤ t
          · simp [update_scrobbler, is_enabled, hen, hde, ho,
              playable_to_track, checked_sub, hcs] at hmem
            exact ⟨hmem.1, hmem.2.1⟩
          · simp [update_scrobbler, is_enabled, hen, hde, ho,
              playable_to_track, checked_sub, hcs] at hmem
      · simp [update_scrobbler, is_enabled, hen, hde,
          playable_to_track] at hmem
    | Paused pp =>
      by_cases hde : de.getD true = true
      · simp [update_scrobbler, is_enabled, hen, hde,
          playable_to_track] at hmem
        exact ⟨hmem.1, hmem.2.1⟩
      · simp [update_scrobbler, is_enabled, hen, hde,
          playable_to_track] at hmem
  · simp [update_scrobbler, is_enabled, hen] at hmem

/-- Witness for C3: a Paused payload under a configured details template
"D" carries fmt0 track "D" in both string fields, and swapping the state
template leaves the outcome unchanged. -/
theorem C3_details_template_used_for_both_witness :
    (update_scrobbler
        (some { sample_cfg with
                discord_format_details := some "D",
                discord_format_state := some "S" }) none fmt0 (.Paused 0)
        (some (.track sample_track)) 0 ⟨some 0, true, true, true⟩
      = update_scrobbler
          (some { sample_cfg with discord_format_details := some "D" }) none
          fmt0 (.Paused 0) (some (.track sample_track)) 0
          ⟨some 0, true, true, true⟩)
    ∧ fmt0 sample_track "D" = fmt0 sample_track "D"
    ∧ fmt0 sample_track "D" = fmt0 sample_track "D" :=
  C3_details_template_used_for_both
    { sample_cfg with discord_format_details := some "D" } none fmt0
    (.Paused 0) sample_track 0 ⟨some 0, true, true, true⟩ "D" "S"
    (fmt0 sample_track "D") (fmt0 sample_track "D") DISCORD_IMAGE_LOGO
    "ncspot" DISCORD_IMAGE_PAUSE DISCORD_PAUSED none rfl
    (by simp [update_scrobbler, is_enabled, sample_cfg, playable_to_track,
      sample_track])

/-- Claim C7 (confirmed): with api key/secret and username/password all
configured, (1) a persisted session credential whose stored username equals
the configured one makes set_lastfm authenticate with the session token and
leave the persisted fields unchanged, (2) the outcome is then independent
of the password-authentication oracle (no password call is consulted),
(3) a stored username differing from the configured one leads to password
authentication whose returned token and the configured username are
persisted, overwriting the prior value, and (4) likewise when no session
key is stored. -/
theorem C7_session_reuse_and_password_persist (sc : Scrobbling)
    (st1 st2 st3 : ConfigState) (u p ak aks sk k2 : String)
    (auth auth2 : String → String → Option String)
    (hak : sc.lastfm_api_key = some ak)
    (hsec : sc.lastfm_api_secret = some aks)
    (hu : sc.lastfm_username = some u)
    (hp : sc.lastfm_password = some p)
    (h1k : st1.lastfm_session_key = some sk)
    (h1u : st1.lastfm_session_user = some u)
    (h2 : st2.lastfm_session_user ≠ some u)
    (h3 : st3.lastfm_session_key = none)
    (hauth : auth u p = some k2) :
    set_lastfm (some sc) st1 auth = some ⟨some (.viaSessionKey sk), st1, false⟩
    ∧ set_lastfm (some sc) st1 auth = set_lastfm (some sc) st1 auth2
    ∧ set_lastfm (some sc) st2 auth
        = some ⟨some (.viaPassword k2), ⟨some k2, some u⟩, true⟩
    ∧ set_lastfm (some sc) st3 auth
        = some ⟨some (.viaPassword k2), ⟨some k2, some u⟩, true⟩ := by
  obtain ⟨en, de, oak, oasec, oun, opw, fd, fs⟩ := sc
  have hak2 : oak = some ak := hak
  have hsec2 : oasec = some aks := hsec
  have hu2 : oun = some u := hu
  have hp2 : opw = some p := hp
  subst hak2 hsec2 hu2 hp2
  obtain ⟨k1, u1⟩ := st1
  have h1k2 : k1 = some sk := h1k
  have h1u2 : u1 = some u := h1u
  subst h1k2 h1u2
  obtain ⟨ks2, us2⟩ := st2
  have h2b : us2 ≠ some u := h2
  obtain ⟨ks3, us3⟩ := st3
  have h3b : ks3 = none := h3
  subst h3b
  refine ⟨by simp [set_lastfm], by simp [set_lastfm], ?_, ?_⟩
  · cases ks2 with
    | none => simp [set_lastfm, hauth]
    | some kk =>
      cases us2 with
      | none => simp [set_lastfm, hauth]
      | some uu =>
        have huu : uu ≠ u := fun hh => h2b (by rw [hh])
        simp [set_lastfm, hauth, huu]
  · simp [set_lastfm, hauth]

/-- Witness for C7 at concrete credentials: session reuse for a matching
stored username, password authentication and persistence for a mismatched
one and for an absent session key. -/
theorem C7_session_reuse_and_password_persist_witness :
    set_lastfm (some sample_cfg) ⟨some "sk", some "user"⟩
        (fun _ _ => some "fresh")
      = some ⟨some (.viaSessionKey "sk"), ⟨some "sk", some "user"⟩, false⟩
    ∧ set_lastfm (some sample_cfg) ⟨some "sk", some "user"⟩
        (fun _ _ => some "fresh")
      = set_lastfm (some sample_cfg) ⟨some "sk", some "user"⟩
          (fun _ _ => none)
    ∧ set_lastfm (some sample_cfg) ⟨some "sk", some "other"⟩
        (fun _ _ => some "fresh")
      = some ⟨some (.viaPassword "fresh"), ⟨some "fresh", some "user"⟩, true⟩
    ∧ set_lastfm (some sample_cfg) ⟨none, some "user"⟩
        (fun _ _ => some "fresh")
      = some ⟨some (.viaPassword "fresh"), ⟨some "fresh", some "user"⟩, true⟩ :=
  C7_session_reuse_and_password_persist sample_cfg
    ⟨some "sk", some "user"⟩ ⟨some "sk", some "other"⟩ ⟨none, some "user"⟩
    "user" "pass" "key" "secret" "sk" "fresh"
    (fun _ _ => some "fresh") (fun _ _ => none)
    rfl rfl rfl rfl rfl rfl (by decide) rfl rfl

/-- Claim C1 counterexample: a Stopped event whose clear_activity call
fails makes the dispatcher panic — the core terminates the process (the
source unwraps the connector Result with .expect) instead of logging the
error and dropping the event, so the claim is false at this input. -/
theorem C1_counterexample :
    (update_scrobbler (some sample_cfg) none fmt0 .Stopped
        (some (.track sample_track)) 0 ⟨some 0, true, false, true⟩).panicked
      = true := by
  decide

/-- Claim C1 (corrected): when a connector operation fails — the presence
set_activity (Playing or Paused) or clear_activity call, the scrobble
submission, or the password authentication — the call panics, terminating
the process, rather than reporting the error and dropping the event. -/
theorem C1_connector_failure_panics (sc : Scrobbling)
    (scrA : ScrobblerAuth) (fmt : Track → String → String) (track : Track)
    (t progress pp : Nat) (o : Oracles) (st : ConfigState)
    (u p ak aks : String) (auth : String → String → Option String)
    (henabled : sc.enabled = some true)
    (hde : sc.discord_enabled.getD true = true)
    (hclock : o.unix_now = some t) (hprog : progress ≤ t)
    (hck : o.clear_activity_ok = false)
    (hsk : o.scrobble_ok = false)
    (hsa : o.set_activity_ok = false)
    (hak : sc.lastfm_api_key = some ak)
    (hsec : sc.lastfm_api_secret = some aks)
    (hu : sc.lastfm_username = some u)
    (hp : sc.lastfm_password = some p)
    (hsu : st.lastfm_session_user ≠ some u)
    (hauth : auth u p = none) :
    (update_scrobbler (some sc) (some scrA) fmt .Stopped
        (some (.track track)) progress o).panicked = true
    ∧ (update_scrobbler (some sc) (some scrA) fmt .FinishedTrack
        (some (.track track)) progress o).panicked = true
    ∧ (update_scrobbler (some sc) (some scrA) fmt (.Playing pp)
        (some (.track track)) progress o).panicked = true
    ∧ (update_scrobbler (some sc) (some scrA) fmt (.Paused pp)
        (some (.track track)) progress o).panicked = true
    ∧ set_lastfm (some sc) st auth = none := by
  refine ⟨?_, ?_, ?_, ?_, ?_⟩
  · simp [update_scrobbler, is_enabled, henabled, playable_to_track, hck]
  · simp [update_scrobbler, is_enabled, henabled, playable_to_track, hsk]
  · simp [update_scrobbler, is_enabled, henabled, playable_to_track, hde,
      hclock, checked_sub, hprog, hsa]
  · simp [update_scrobbler, is_enabled, henabled, playable_to_track, hde,
      hsa]
  · obtain ⟨en, de, oak, oasec, oun, opw, fd, fs⟩ := sc
    have hak2 : oak = some ak := hak
    have hsec2 : oasec = some aks := hsec
    have hu2 : oun = some u := hu
    have hp2 : opw = some p := hp
    subst hak2 hsec2 hu2 hp2
    obtain ⟨ks, us⟩ := st
    have hsu2 : us ≠ some u := hsu
    cases ks with
    | none => simp [set_lastfm, hauth]
    | some kk =>
      cases us with
      | none => simp [set_lastfm, hauth]
      | some uu =>
        have huu : uu ≠ u := fun hh => hsu2 (by rw [hh])
        simp [set_lastfm, hauth, huu]

/-- Witness for C1 at concrete inputs: with every connector operation
failing, all four dispatch paths panic and set_lastfm panics. -/
theorem C1_connector_failure_panics_witness :
    (update_scrobbler (some sample_cfg) (some (.viaSessionKey "sk")) fmt0
        .Stopped (some (.track sample_track)) 5
        ⟨some 100, false, false, false⟩).panicked = true
    ∧ (update_scrobbler (some sample_cfg) (some (.viaSessionKey "sk")) fmt0
        .FinishedTrack (some (.track sample_track)) 5
        ⟨some 100, false, false, false⟩).panicked = true
    ∧ (update_scrobbler (some sample_cfg) (some (.viaSessionKey "sk")) fmt0
        (.Playing 0) (some (.track sample_track)) 5
        ⟨some 100, false, false, false⟩).panicked = true
    ∧ (update_scrobbler (some sample_cfg) (some (.viaSessionKey "sk")) fmt0
        (.Paused 0) (some (.track sample_track)) 5
        ⟨some 100, false, false, false⟩).panicked = true
    ∧ set_lastfm (some sample_cfg) ⟨some "sk", some "other"⟩
        (fun _ _ => none) = none :=
  C1_connector_failure_panics sample_cfg (.viaSessionKey "sk") fmt0
    sample_track 100 5 0 ⟨some 100, false, false, false⟩
    ⟨some "sk", some "other"⟩ "user" "pass" "key" "secret"
    (fun _ _ => none) rfl rfl rfl (by decide) rfl rfl rfl rfl rfl rfl rfl
    (by decide) rfl
